import Mathlib

/-!
Verification of the retrieval-augmented query engine of the rag-chatbot
repository, as a shallow embedding in Lean 4.

The embedding covers:
* the score normalisation `similarity d = 1 / (1 + d)` shared by
  `utils/chat.py` (`process_query`), `rag_apis.py` (`rag_query`) and
  `utils/document_processing.py` (`retrieve_documents`);
* the multi-KB query loop, ranking, deduplication and final-answer
  selection of `process_query` in `utils/chat.py`;
* the source aggregation of the `/query/rag` endpoint (`rag_query` in
  `rag_apis.py`);
* the chunking dispatch `create_chunking` and the FAISS index
  create/append/recover step of `process_and_chunk_file` in
  `utils/document_processing.py`;
* the knowledge-base registry operations `register_knowledge_base` and
  `register_document` of `utils/database.py`.

Raw FAISS distances and normalised scores are modelled as rationals;
the external collaborators (FAISS search results, LLM calls, database
inserts) are oracle parameters, so that each code path is a total
function of the query inputs plus those oracles, exactly following the
control flow of the Python source.
-/

namespace RagChatbot

/-- Normalised similarity of a raw index distance, as computed at
`utils/chat.py:204` (`relevance = 1.0 / (1.0 + float(score))`),
`rag_apis.py:279` (`relevance = 1 / (1 + float(score))`) and
`utils/document_processing.py:420` (`normalized_score = 1 / (1 + float(score))`). -/
def similarity (d : ℚ) : ℚ := 1 / (1 + d)

/-- Chunk metadata attached to a FAISS hit: the `source` filename and the
0-based `page` number stored in `doc.metadata` at ingestion time
(`utils/document_processing.py:304-314`). -/
structure DocMeta where
  source : String
  page : Nat
deriving DecidableEq, Repr

/-- A retrieved document after `process_query` has attached its extra
metadata (`utils/chat.py:202-211`): the KB name, the normalised score and
the raw distance. -/
structure RetrievedDoc where
  source : String
  page : Nat
  kbName : String
  score : ℚ
  rawScore : ℚ
deriving DecidableEq, Repr

/-- Deduplication key of a retrieved document, matching
`source_key = (doc.metadata.get('source', ''), doc.metadata.get('page', 0))`
at `utils/chat.py:304`. -/
def docKey (d : RetrievedDoc) : String × Nat := (d.source, d.page)

/-- Stable descending insertion by normalised score: the element is placed
after every element of greater-or-equal score, which is exactly the
(stable) result of CPython `list.sort(key=..., reverse=True)` used at
`utils/chat.py:298`. -/
def insertDocDesc (d : RetrievedDoc) : List RetrievedDoc → List RetrievedDoc
  | [] => [d]
  | e :: es => if e.score < d.score then d :: e :: es else e :: insertDocDesc d es

/-- Stable sort of the collected source documents by score descending,
modelling `all_source_docs.sort(key=lambda doc: doc.metadata.get('score', 0), reverse=True)`
at `utils/chat.py:298`. -/
def sortDocsDesc (l : List RetrievedDoc) : List RetrievedDoc :=
  l.foldr insertDocDesc []

/-- First-occurrence deduplication by `docKey`, modelling the
`seen_sources` loop at `utils/chat.py:300-307`; `seen` is the set of keys
already emitted. -/
def dedupDocs (seen : List (String × Nat)) : List RetrievedDoc → List RetrievedDoc
  | [] => []
  | d :: rest =>
    if docKey d ∈ seen then dedupDocs seen rest
    else d :: dedupDocs (docKey d :: seen) rest

theorem insertDocDesc_perm (d : RetrievedDoc) (l : List RetrievedDoc) :
    (insertDocDesc d l).Perm (d :: l) := by
  induction l with
  | nil => simp [insertDocDesc]
  | cons e es ih =>
    by_cases h : e.score < d.score
    · simp [insertDocDesc, h]
    · simpa [insertDocDesc, h] using ((ih.cons e).trans (List.Perm.swap d e es))

theorem mem_insertDocDesc {x d : RetrievedDoc} {l : List RetrievedDoc}
    (hx : x ∈ insertDocDesc d l) : x = d ∨ x ∈ l := by
  have := (insertDocDesc_perm d l).mem_iff.mp hx
  simpa using this

theorem insertDocDesc_pairwise {d : RetrievedDoc} {l : List RetrievedDoc}
    (hl : l.Pairwise (fun a b => b.score ≤ a.score)) :
    (insertDocDesc d l).Pairwise (fun a b => b.score ≤ a.score) := by
  induction l with
  | nil => simp [insertDocDesc]
  | cons e es ih =>
    rcases List.pairwise_cons.mp hl with ⟨he, hes⟩
    by_cases h : e.score < d.score
    · simp only [insertDocDesc, if_pos h]
      refine List.pairwise_cons.mpr ⟨?_, hl⟩
      intro x hx
      rcases List.mem_cons.mp hx with rfl | hx
      · exact le_of_lt h
      · exact le_trans (he x hx) (le_of_lt h)
    · simp only [insertDocDesc, if_neg h]
      refine List.pairwise_cons.mpr ⟨?_, ih hes⟩
      intro x hx
      rcases mem_insertDocDesc hx with rfl | hx
      · exact not_lt.mp h
      · exact he x hx

theorem sortDocsDesc_perm (l : List RetrievedDoc) :
    (sortDocsDesc l).Perm l := by
  induction l with
  | nil => simp [sortDocsDesc]
  | cons d rest ih =>
    exact (insertDocDesc_perm d (sortDocsDesc rest)).trans (ih.cons d)

theorem sortDocsDesc_pairwise (l : List RetrievedDoc) :
    (sortDocsDesc l).Pairwise (fun a b => b.score ≤ a.score) := by
  induction l with
  | nil => simp [sortDocsDesc]
  | cons d rest ih => exact insertDocDesc_pairwise ih

theorem mem_dedupDocs {x : RetrievedDoc} :
    ∀ {seen : List (String × Nat)} {l : List RetrievedDoc},
      x ∈ dedupDocs seen l → x ∈ l ∧ docKey x ∉ seen := by
  intro seen l
  induction l generalizing seen with
  | nil => simp [dedupDocs]
  | cons d rest ih =>
    intro hx
    by_cases h : docKey d ∈ seen
    · rcases ih (by simpa [dedupDocs, h] using hx) with ⟨h1, h2⟩
      exact ⟨List.mem_cons_of_mem d h1, h2⟩
    · rcases List.mem_cons.mp (by simpa [dedupDocs, h] using hx) with rfl | hx'
      · exact ⟨List.mem_cons_self x rest, h⟩
      · rcases ih hx' with ⟨h1, h2⟩
        refine ⟨List.mem_cons_of_mem d h1, fun hc => h2 ?_⟩
        exact List.mem_cons_of_mem _ hc

theorem dedupDocs_sublist :
    ∀ (seen : List (String × Nat)) (l : List RetrievedDoc),
      (dedupDocs seen l).Sublist l := by
  intro seen l
  induction l generalizing seen with
  | nil => simp [dedupDocs]
  | cons d rest ih =>
    by_cases h : docKey d ∈ seen
    · simpa [dedupDocs, h] using (ih seen).cons d
    · simpa [dedupDocs, h] using (ih (docKey d :: seen)).cons₂ d

theorem dedupDocs_key_nodup :
    ∀ (seen : List (String × Nat)) (l : List RetrievedDoc),
      (dedupDocs seen l).Pairwise (fun a b => docKey a ≠ docKey b) := by
  intro seen l
  induction l generalizing seen with
  | nil => simp [dedupDocs]
  | cons d rest ih =>
    by_cases h : docKey d ∈ seen
    · simpa [dedupDocs, h] using ih seen
    · simp only [dedupDocs, h, if_false]
      refine List.pairwise_cons.mpr ⟨?_, ih (docKey d :: seen)⟩
      intro x hx hc
      have := (mem_dedupDocs hx).2
      exact this (by simp [hc])

/-- In a score-descending list, every element kept by the deduplication
pass carries the maximal score of its key. -/
theorem dedupDocs_max_score :
    ∀ {seen : List (String × Nat)} {l : List RetrievedDoc},
      l.Pairwise (fun a b => b.score ≤ a.score) →
      ∀ x ∈ dedupDocs seen l, ∀ e ∈ l, docKey e = docKey x → e.score ≤ x.score := by
  intro seen l
  induction l generalizing seen with
  | nil => simp [dedupDocs]
  | cons d rest ih =>
    intro hl x hx e he hkey
    rcases List.pairwise_cons.mp hl with ⟨hd, hrest⟩
    by_cases h : docKey d ∈ seen
    · have hx' : x ∈ dedupDocs seen rest := by simpa [dedupDocs, h] using hx
      rcases List.mem_cons.mp he with rfl | he'
      · exact absurd (hkey ▸ h) (mem_dedupDocs hx').2
      · exact ih hrest x hx' e he' hkey
    · rcases List.mem_cons.mp (by simpa [dedupDocs, h] using hx) with rfl | hx'
      · rcases List.mem_cons.mp he with rfl | he'
        · exact le_refl _
        · exact hd e he'
      · have hnot := (mem_dedupDocs hx').2
        rcases List.mem_cons.mp he with rfl | he'
        · exact absurd (by simp [hkey]) hnot
        · exact ih hrest x hx' e he' hkey

/-- Outcome of the per-KB block inside the query loop of `process_query`
(`utils/chat.py:136-287`).

* `loadFail` covers every path that ends in `continue` before any document
  is collected: no index directory found (`utils/chat.py:160-163`),
  embedding-model initialisation failure (`:169-171`), `FAISS.load_local`
  failure (`:181-183`), `similarity_search_with_score` failure
  (`:194-196`), and any other exception caught at `:283-287`.
* `retrieved hits llm` is a successful search returning `hits` as
  `(chunk metadata, raw distance)` pairs; `llm = some a` means the per-KB
  language-model call produced answer `a`, while `llm = none` means LLM
  initialisation (`:233-235`) or invocation (`:276-278`) raised and the
  loop continued without an answer. -/
inductive KBOutcome where
  | loadFail
  | retrieved (hits : List (DocMeta × ℚ)) (llm : Option String)

/-- Mutable collections built up by the query loop of `process_query`:
`all_source_docs`, `all_kb_docs` and `all_answers`
(`utils/chat.py:128-130`). -/
structure LoopState where
  allSourceDocs : List RetrievedDoc
  allKbDocs : List (String × List RetrievedDoc)
  allAnswers : List (String × String)
deriving Repr

/-- Initial loop state (`utils/chat.py:128-130`). -/
def initLoopState : LoopState := ⟨[], [], []⟩

/-- One iteration of the KB loop of `process_query`
(`utils/chat.py:135-287`): on a failed KB nothing changes; on a
successful search with non-empty hits, the hits are tagged with the KB
name, the normalised score and the raw score and appended to the
collections, and a successful LLM call appends `(kb, answer)` to
`all_answers`. -/
def processKB (kb : String) (oc : KBOutcome) (st : LoopState) : LoopState :=
  match oc with
  | .loadFail => st
  | .retrieved hits llm =>
    if hits = [] then st
    else
      let kbDocs := hits.map (fun h =>
        { source := h.1.source, page := h.1.page, kbName := kb,
          score := similarity h.2, rawScore := h.2 : RetrievedDoc })
      let st1 : LoopState :=
        { st with
          allKbDocs := st.allKbDocs ++ [(kb, kbDocs)],
          allSourceDocs := st.allSourceDocs ++ kbDocs }
      match llm with
      | none => st1
      | some a => { st1 with allAnswers := st1.allAnswers ++ [(kb, a)] }

/-- The whole KB loop of `process_query` (`utils/chat.py:135-287`), as a
fold over the requested KB names with the per-KB outcome oracle. -/
def runKBLoop (kbNames : List String) (outcomes : String → KBOutcome) : LoopState :=
  kbNames.foldl (fun st kb => processKB kb (outcomes kb) st) initLoopState

/-- A source entry of the query result, as built at `utils/chat.py:327-334`:
1-based page, normalised score, owning KB name. -/
structure SourceEntry where
  source : String
  page : Nat
  score : ℚ
  kbName : String
deriving DecidableEq, Repr

/-- Conversion of a retrieved document into a result source entry
(`utils/chat.py:328-333`): the page is presented 1-based. -/
def docToSource (d : RetrievedDoc) : SourceEntry :=
  { source := d.source, page := d.page + 1, score := d.score, kbName := d.kbName }

/-- The deduplicated, score-ranked `query_relevant_sources` of
`process_query` (`utils/chat.py:297-334`): sort all collected documents by
score descending, keep the first occurrence of each (source, page) key,
then format each survivor as a source entry. -/
def finalSources (kbNames : List String) (outcomes : String → KBOutcome) :
    List SourceEntry :=
  (dedupDocs [] (sortDocsDesc (runKBLoop kbNames outcomes).allSourceDocs)).map docToSource

/-- The per-KB `kb_sources` map of `process_query`
(`utils/chat.py:338-354`): each KB list is deduplicated by (source, page)
in retrieval order. -/
def kbSpecificSources (kbNames : List String) (outcomes : String → KBOutcome) :
    List (String × List SourceEntry) :=
  (runKBLoop kbNames outcomes).allKbDocs.map
    (fun p => (p.1, (dedupDocs [] p.2).map docToSource))

/-- The fixed-shape no-information answer of `utils/chat.py:314`, with the
queried KB count interpolated. -/
def noInfoMessage (n : Nat) : String :=
  "I couldn\x27t find any relevant information in the " ++ toString n ++
    " selected knowledge bases. Please check if these knowledge bases contain the information you\x27re looking for, or try rephrasing your question."

/-- The error answer built by the exception handler of `process_query`
(`utils/chat.py:385`). -/
def errorContent (e : String) : String :=
  "I encountered an error while processing your query: " ++ e

/-- Final answer selection of `process_query` (`utils/chat.py:311-320`):
zero collected answers give the fixed no-information message; exactly one
gives that answer; with two or more the `else` branch at `:318-320` is an
elided stub (`# ... existing synthesis logic ...`), so the local variable
`answer` keeps the value assigned by the last successful per-KB
language-model call inside the loop. -/
def selectAnswer (queriedKbCount : Nat) (allAnswers : List (String × String)) : String :=
  if allAnswers.length = 0 then noInfoMessage queriedKbCount
  else if allAnswers.length = 1 then ((allAnswers.head?.map Prod.snd).getD "")
  else ((allAnswers.getLast?.map Prod.snd).getD "")

/-- Result dictionary of `process_query` (`utils/chat.py:375-382` and
`:387-392`): answer content, the query-relevant sources, the per-KB
sources, the id returned by `add_message`, and the `error` field present
only on the exception path. -/
structure QueryResult where
  content : String
  queryRelevant : List SourceEntry
  kbSpecific : List (String × List SourceEntry)
  messageId : Nat
  error : Option String
deriving Repr

/-- Exception handler of `process_query` (`utils/chat.py:383-392`): it
formats the error message, calls `add_message` again — an exception from
that call propagates to the caller — and returns the error-shaped result
with empty sources. -/
def handleQueryError (addMessage : String → Except String Nat) (e : String) :
    Except String QueryResult :=
  match addMessage (errorContent e) with
  | .error e2 => .error e2
  | .ok mid =>
    .ok { content := errorContent e, queryRelevant := [], kbSpecific := [],
          messageId := mid, error := some e }

/-- Knowledge-base argument resolution of `process_query`
(`utils/chat.py:114-124`), which happens before the `try` block: a
non-empty `kb_names` list wins; otherwise a truthy `kb_name` is wrapped in
a one-element list; otherwise `ValueError` is raised to the caller. -/
def resolveKbNames (kbNamesArg : List String) (kbNameArg : Option String) :
    Except String (List String) :=
  if kbNamesArg ≠ [] then .ok kbNamesArg
  else
    match kbNameArg with
    | some n => if n = "" then .error "No knowledge base specified" else .ok [n]
    | none => .error "No knowledge base specified"

/-- Shallow embedding of `process_query` (`utils/chat.py:106-392`).
External effects are oracles: `outcomes` gives each KB's retrieval/LLM
outcome, `addMessage` and `addSources` are the database calls of
`utils/database.py` (which may raise). Every exception inside the `try`
block (`utils/chat.py:126-382`) is routed to `handleQueryError`; the KB
loop absorbs its own per-KB failures. -/
def processQuery (kbNamesArg : List String) (kbNameArg : Option String)
    (outcomes : String → KBOutcome)
    (addMessage : String → Except String Nat)
    (addSources : List SourceEntry → Except String Unit) :
    Except String QueryResult :=
  match resolveKbNames kbNamesArg kbNameArg with
  | .error e => .error e
  | .ok kbNames =>
    match addMessage (selectAnswer kbNames.length (runKBLoop kbNames outcomes).allAnswers) with
    | .error e => handleQueryError addMessage e
    | .ok mid =>
      match (if finalSources kbNames outcomes ≠ [] then
          addSources (finalSources kbNames outcomes) else .ok ()) with
      | .error e => handleQueryError addMessage e
      | .ok _ =>
        .ok { content := selectAnswer kbNames.length (runKBLoop kbNames outcomes).allAnswers,
              queryRelevant := finalSources kbNames outcomes,
              kbSpecific := kbSpecificSources kbNames outcomes,
              messageId := mid, error := none }

/-- CPython banker rounding (`round` on a number, ties to even), used at
`rag_apis.py:280` (`relevance_percent = round(relevance * 100)`). -/
def pyRound (q : ℚ) : ℤ :=
  if q - ⌊q⌋ < 1/2 then ⌊q⌋
  else if (1 : ℚ)/2 < q - ⌊q⌋ then ⌊q⌋ + 1
  else if ⌊q⌋ % 2 = 0 then ⌊q⌋ else ⌊q⌋ + 1

/-- A source entry of the `/query/rag` response (`SourceInfo` in
`rag_apis.py:248-252`): 1-based page and an integer percentage score. -/
structure ApiSource where
  source : String
  page : Nat
  score : ℤ
  kbName : String
deriving DecidableEq, Repr

/-- The `all_sources` list built by `rag_query` (`rag_apis.py:267-288`):
for each requested KB in order, a failing retriever or search
(`except ... continue`, modelled by `search kb = none`) contributes
nothing, and a successful search appends one entry per hit in search
order — with no deduplication and no global sort. -/
def ragQuerySources (kbNames : List String)
    (search : String → Option (List (DocMeta × ℚ))) : List ApiSource :=
  kbNames.foldl (fun acc kb =>
    match search kb with
    | none => acc
    | some hits => acc ++ hits.map (fun h =>
        { source := h.1.source, page := h.1.page + 1,
          score := pyRound (similarity h.2 * 100), kbName := kb })) []

/-- A langchain document/chunk: page content plus the provenance metadata
attached at `utils/document_processing.py:304-314`. -/
structure Document where
  pageContent : String
  page : Nat
  source : String
deriving DecidableEq, Repr

/-- The error message raised by `create_chunking` for an unrecognised
strategy name (`utils/document_processing.py:233-235`). -/
def invalidChunkingMessage : String :=
  "Invalid chunking type. Choose from \x27text_splitter\x27, \x27recursive\x27, \x27semantic_percentile\x27, \x27semantic_interquartile\x27, or \x27semantic_std_dev\x27."

/-- The strategy names recognised by the dispatch chain of
`create_chunking` (`utils/document_processing.py:191-230`). -/
def recognizedStrategies : List String :=
  ["text_splitter", "recursive", "semantic_chunker", "semantic_percentile",
   "semantic_interquartile", "semantic_std_dev"]

/-- Shallow embedding of `create_chunking`
(`utils/document_processing.py:176-241`). The langchain splitters are
oracle parameters, applied to the same arguments the source passes them:
the two fixed splitters receive `chunk_size` and `chunk_overlap`, the
three semantic splitters receive their statistic parameter and the
embedding model name. The value `.ok none` is Python `None`: the
`semantic_chunker` branch (`:205-206`) only constructs a splitter and
falls through the dispatch chain without a `return` statement, so the
function ends returning `None`. An unrecognised name raises
`ValueError`, which the `except` clause (`:239-241`) re-raises. -/
def createChunking (chunkingType : String) (documents : List Document)
    (chunkSize chunkOverlap : Nat) (percentile iqFactor sdFactor : ℚ)
    (embeddingModelName : String)
    (charSplit recSplit : Nat → Nat → List Document → List Document)
    (semPct semIQ semSD : ℚ → String → List Document → List Document) :
    Except String (Option (List Document)) :=
  if chunkingType = "text_splitter" then
    .ok (some (charSplit chunkSize chunkOverlap documents))
  else if chunkingType = "recursive" then
    .ok (some (recSplit chunkSize chunkOverlap documents))
  else if chunkingType = "semantic_chunker" then .ok none
  else if chunkingType = "semantic_percentile" then
    .ok (some (semPct percentile embeddingModelName documents))
  else if chunkingType = "semantic_interquartile" then
    .ok (some (semIQ iqFactor embeddingModelName documents))
  else if chunkingType = "semantic_std_dev" then
    .ok (some (semSD sdFactor embeddingModelName documents))
  else .error invalidChunkingMessage

/-- On-disk state of one FAISS index directory: `missing` when
`os.path.exists(index_path) and os.path.isdir(index_path)` is false,
otherwise `stored docs intact` where `intact = false` means loading or
appending to the persisted index raises. -/
inductive FaissDisk where
  | missing
  | stored (docs : List Document) (intact : Bool)
deriving DecidableEq, Repr

/-- The `FAISS.load_local` + `add_documents` + `save_local` attempt of
`process_and_chunk_file` (`utils/document_processing.py:350-354`): on an
intact index it yields the appended document list; on a corrupt one it
raises. -/
def faissLoadAdd (docs : List Document) (intact : Bool) (chunks : List Document) :
    Except Unit (List Document) :=
  if intact then .ok (docs ++ chunks) else .error ()

/-- The index create/append/recover step of `process_and_chunk_file`
(`utils/document_processing.py:346-379`): a missing directory gets a new
index built from the current chunks; an existing directory is loaded and
appended to; if that raises, the directory is removed (`shutil.rmtree`)
and a fresh index containing exactly the current chunks is created and
persisted. -/
def updateFaissIndex (disk : FaissDisk) (chunks : List Document) : FaissDisk :=
  match disk with
  | .missing => .stored chunks true
  | .stored docs intact =>
    match faissLoadAdd docs intact chunks with
    | .ok newDocs => .stored newDocs true
    | .error _ => .stored chunks true

/-- A row of the `knowledge_bases` table (`utils/database.py:116-126`):
the table has `name` (unique), `description`, `document_count`,
`embedding_model` and `chunking_strategy` columns — and no chunk-count
column; per-document chunk counts live in the `documents` table. -/
structure KBRow where
  id : Nat
  name : String
  description : String
  embeddingModel : String
  chunkingStrategy : String
  documentCount : Nat
deriving DecidableEq, Repr

/-- A row of the `documents` table (`utils/database.py:128-138`). -/
structure DocumentRow where
  id : Nat
  knowledgeBaseId : Nat
  filename : String
  documentType : String
  pageCount : Nat
  chunkCount : Nat
deriving DecidableEq, Repr

/-- The knowledge-base registry: the `knowledge_bases` and `documents`
tables plus the serial id counters. -/
structure Registry where
  kbs : List KBRow
  docs : List DocumentRow
  nextKbId : Nat
  nextDocId : Nat
deriving DecidableEq, Repr

/-- Shallow embedding of `register_knowledge_base`
(`utils/database.py:333-350`): the insert of a row whose `name` already
exists violates the unique constraint; the transaction is rolled back and
the existing row id is returned, leaving every column of the existing row
unchanged. Otherwise a fresh row with `document_count = 0` is inserted. -/
def registerKnowledgeBase (r : Registry) (name embeddingModel chunkingStrategy : String)
    (description : String := "") : Registry × Nat :=
  match r.kbs.find? (fun k => k.name = name) with
  | some row => (r, row.id)
  | none =>
    let row : KBRow :=
      { id := r.nextKbId, name := name, description := description,
        embeddingModel := embeddingModel, chunkingStrategy := chunkingStrategy,
        documentCount := 0 }
    ({ r with kbs := r.kbs ++ [row], nextKbId := r.nextKbId + 1 }, r.nextKbId)

/-- Shallow embedding of `register_document` (`utils/database.py:374-389`):
a `documents` row is inserted carrying the per-document chunk count, and
`document_count` of the owning `knowledge_bases` row is incremented; no
other column of that row is touched. -/
def registerDocument (r : Registry) (knowledgeBaseId : Nat)
    (filename documentType : String) (pageCount chunkCount : Nat) : Registry × Nat :=
  let row : DocumentRow :=
    { id := r.nextDocId, knowledgeBaseId := knowledgeBaseId,
      filename := filename, documentType := documentType,
      pageCount := pageCount, chunkCount := chunkCount }
  let bump : KBRow → KBRow := fun k =>
    if k.id = knowledgeBaseId then { k with documentCount := k.documentCount + 1 } else k
  let r2 : Registry :=
    { r with docs := r.docs ++ [row], kbs := r.kbs.map bump, nextDocId := r.nextDocId + 1 }
  (r2, r.nextDocId)

/-- The registry effect of one ingestion in `process_and_chunk_file`
(`utils/document_processing.py:282-337`): register the knowledge base
(a no-op returning the existing id when the name is taken), then register
the document with `chunk_count = len(chunks)`. -/
def ingestRegistry (r : Registry) (kbName embeddingModel chunkingStrategy : String)
    (filename documentType : String) (pageCount chunkCount : Nat) : Registry :=
  let res := registerKnowledgeBase r kbName embeddingModel chunkingStrategy
  (registerDocument res.1 res.2 filename documentType pageCount chunkCount).1

/-- Total chunk count of a knowledge base as recorded in the registry:
the sum of `chunk_count` over its `documents` rows (the
`knowledge_bases` table itself has no chunk-count column). -/
def kbChunkCount (r : Registry) (kbId : Nat) : Nat :=
  ((r.docs.filter (fun d => d.knowledgeBaseId = kbId)).map
    (fun d => d.chunkCount)).sum

/-! ## Claim theorems -/

/-- C5: for every raw distance `d ≥ 0`, the normalised similarity computed
by the retrieval paths equals `1/(1+d)`, is monotonically non-increasing
in `d`, and lies in the half-open interval `(0, 1]`. -/
theorem similarity_normalization (d : ℚ) (hd : 0 ≤ d) :
    similarity d = 1 / (1 + d) ∧ 0 < similarity d ∧ similarity d ≤ 1 ∧
      ∀ e : ℚ, d ≤ e → similarity e ≤ similarity d := by
  have h1 : (0 : ℚ) < 1 + d := by linarith
  refine ⟨rfl, ?_, ?_, ?_⟩
  · unfold similarity
    positivity
  · unfold similarity
    rw [div_le_one h1]
    linarith
  · intro e he
    have h2 : (0 : ℚ) < 1 + e := by linarith
    unfold similarity
    exact one_div_le_one_div_of_le h1 (by linarith)

/-- Witness for C5 at the concrete distances `d = 2`, `e = 5`. -/
theorem similarity_normalization_witness :
    (0 : ℚ) ≤ 2 ∧ (2 : ℚ) ≤ 5 ∧ similarity 5 ≤ similarity 2 ∧ 0 < similarity 2 :=
  ⟨by norm_num, by norm_num,
    (similarity_normalization 2 (by norm_num)).2.2.2 5 (by norm_num),
    (similarity_normalization 2 (by norm_num)).2.1⟩

/-- C6: for every chunking-strategy name outside the set recognised by the
dispatch chain, `create_chunking` raises the invalid-argument `ValueError`
(re-raised by its `except` clause, hence surfaced to the caller), whatever
the documents, chunk size, overlap, statistic parameters, embedding model
and splitters. -/
theorem createChunking_invalid_strategy (chunkingType : String)
    (h : chunkingType ∉ recognizedStrategies)
    (documents : List Document) (chunkSize chunkOverlap : Nat)
    (percentile iqFactor sdFactor : ℚ) (embeddingModelName : String)
    (charSplit recSplit : Nat → Nat → List Document → List Document)
    (semPct semIQ semSD : ℚ → String → List Document → List Document) :
    createChunking chunkingType documents chunkSize chunkOverlap percentile
        iqFactor sdFactor embeddingModelName charSplit recSplit semPct semIQ semSD
      = .error invalidChunkingMessage := by
  simp only [recognizedStrategies, List.mem_cons, List.not_mem_nil, or_false, not_or] at h
  obtain ⟨h1, h2, h3, h4, h5, h6⟩ := h
  simp [createChunking, h1, h2, h3, h4, h5, h6]

/-- Witness for C6 at the concrete strategy name "chunky". -/
theorem createChunking_invalid_strategy_witness :
    ("chunky" ∉ recognizedStrategies) ∧
      createChunking "chunky" [] 1000 100 90 (3/2) 3 "text-embedding-3-small"
          (fun _ _ d => d) (fun _ _ d => d) (fun _ _ d => d) (fun _ _ d => d)
          (fun _ _ d => d)
        = .error invalidChunkingMessage :=
  ⟨by simp [recognizedStrategies],
    createChunking_invalid_strategy "chunky" (by simp [recognizedStrategies])
      [] 1000 100 90 (3/2) 3 "text-embedding-3-small"
      (fun _ _ d => d) (fun _ _ d => d) (fun _ _ d => d) (fun _ _ d => d)
      (fun _ _ d => d)⟩

/-- C9: for the strategy name "semantic_chunker" and every input document
list (and every other parameter), `create_chunking` returns Python `None`
(`.ok none`): the branch constructs a splitter but falls through the
dispatch chain without returning chunks or raising. -/
theorem createChunking_semantic_chunker_returns_none
    (documents : List Document) (chunkSize chunkOverlap : Nat)
    (percentile iqFactor sdFactor : ℚ) (embeddingModelName : String)
    (charSplit recSplit : Nat → Nat → List Document → List Document)
    (semPct semIQ semSD : ℚ → String → List Document → List Document) :
    createChunking "semantic_chunker" documents chunkSize chunkOverlap percentile
        iqFactor sdFactor embeddingModelName charSplit recSplit semPct semIQ semSD
      = .ok none := by
  simp [createChunking]

/-- C7: if loading or appending to the existing on-disk index raises
(`intact = false`), the ingestion step deletes the corrupted directory and
persists a fresh intact index containing exactly the chunks of the current
ingestion — never a stale or partial one. -/
theorem updateFaissIndex_corruption_recovery (docs chunks : List Document) :
    updateFaissIndex (.stored docs false) chunks = .stored chunks true ∧
      updateFaissIndex .missing chunks = .stored chunks true ∧
      updateFaissIndex (.stored docs true) chunks = .stored (docs ++ chunks) true := by
  refine ⟨?_, rfl, ?_⟩ <;> simp [updateFaissIndex, faissLoadAdd]

theorem find?_name_map_bump (nm : String) (kbId : Nat) (l : List KBRow) :
    (l.map (fun k =>
        if k.id = kbId then { k with documentCount := k.documentCount + 1 } else k)).find?
        (fun k => k.name = nm)
      = Option.map (fun k =>
          if k.id = kbId then { k with documentCount := k.documentCount + 1 } else k)
          (l.find? (fun k => k.name = nm)) := by
  induction l with
  | nil => rfl
  | cons k rest ih =>
    by_cases h : k.name = nm
    · by_cases hid : k.id = kbId <;> simp [List.find?_cons, h, hid]
    · by_cases hid : k.id = kbId <;> simp [List.find?_cons, h, hid, ih]

/-- C8: ingesting a further file into an already-registered KB name leaves
the registered embedding model and chunking strategy of that KB unchanged,
increments its `document_count`, and increases its total registered chunk
count by the chunk count of the new file. -/
theorem ingestRegistry_preserves_kb_row (r : Registry)
    (kbName embeddingModel chunkingStrategy filename documentType : String)
    (pageCount chunkCount : Nat) (row : KBRow)
    (hfound : r.kbs.find? (fun k => k.name = kbName) = some row)
    (hcc : 0 < chunkCount) :
    ((ingestRegistry r kbName embeddingModel chunkingStrategy filename documentType
        pageCount chunkCount).kbs.find? (fun k => k.name = kbName)).map
        (fun k => k.embeddingModel) = some row.embeddingModel ∧
    ((ingestRegistry r kbName embeddingModel chunkingStrategy filename documentType
        pageCount chunkCount).kbs.find? (fun k => k.name = kbName)).map
        (fun k => k.chunkingStrategy) = some row.chunkingStrategy ∧
    ((ingestRegistry r kbName embeddingModel chunkingStrategy filename documentType
        pageCount chunkCount).kbs.find? (fun k => k.name = kbName)).map
        (fun k => k.documentCount) = some (row.documentCount + 1) ∧
    kbChunkCount r row.id
      < kbChunkCount (ingestRegistry r kbName embeddingModel chunkingStrategy
          filename documentType pageCount chunkCount) row.id ∧
    kbChunkCount (ingestRegistry r kbName embeddingModel chunkingStrategy
        filename documentType pageCount chunkCount) row.id
      = kbChunkCount r row.id + chunkCount := by
  have hreg : ingestRegistry r kbName embeddingModel chunkingStrategy filename
      documentType pageCount chunkCount
      = (registerDocument r row.id filename documentType pageCount chunkCount).1 := by
    simp [ingestRegistry, registerKnowledgeBase, hfound]
  have hfind : ((registerDocument r row.id filename documentType pageCount
      chunkCount).1.kbs.find? (fun k => k.name = kbName))
      = some { row with documentCount := row.documentCount + 1 } := by
    simp only [registerDocument]
    rw [find?_name_map_bump, hfound]
    simp
  have hsum : kbChunkCount (registerDocument r row.id filename documentType
      pageCount chunkCount).1 row.id = kbChunkCount r row.id + chunkCount := by
    simp only [registerDocument, kbChunkCount]
    simp [List.filter_append]
  rw [hreg, hfind, hsum]
  refine ⟨rfl, rfl, rfl, ?_, rfl⟩
  omega

/-- Concrete KB row for the C8 witness. -/
def cKbRowW : KBRow :=
  { id := 0, name := "kb", description := "",
    embeddingModel := "text-embedding-3-small",
    chunkingStrategy := "recursive", documentCount := 1 }

/-- Concrete document row for the C8 witness. -/
def cDocRowW : DocumentRow :=
  { id := 0, knowledgeBaseId := 0, filename := "f1.pdf", documentType := "pdf",
    pageCount := 3, chunkCount := 5 }

/-- Concrete registry for the C8 witness: one KB with one ingested
document of 5 chunks. -/
def cRegistryW : Registry :=
  { kbs := [cKbRowW], docs := [cDocRowW], nextKbId := 1, nextDocId := 1 }

/-- Witness for C8: a registry holding one KB ("kb") with one ingested
document of 5 chunks, into which a second file of 4 chunks is ingested. -/
theorem ingestRegistry_preserves_kb_row_witness :
    (cRegistryW.kbs.find? (fun k => k.name = "kb") = some cKbRowW) ∧ 0 < 4 ∧
    ((ingestRegistry cRegistryW "kb" "text-embedding-3-small" "recursive" "f2.pdf"
        "pdf" 2 4).kbs.find? (fun k => k.name = "kb")).map
        (fun k => k.documentCount) = some (cKbRowW.documentCount + 1) ∧
    kbChunkCount (ingestRegistry cRegistryW "kb" "text-embedding-3-small" "recursive"
        "f2.pdf" "pdf" 2 4) cKbRowW.id = kbChunkCount cRegistryW cKbRowW.id + 4 :=
  ⟨by decide, by decide,
    (ingestRegistry_preserves_kb_row cRegistryW "kb" "text-embedding-3-small"
      "recursive" "f2.pdf" "pdf" 2 4 cKbRowW (by decide) (by decide)).2.2.1,
    (ingestRegistry_preserves_kb_row cRegistryW "kb" "text-embedding-3-small"
      "recursive" "f2.pdf" "pdf" 2 4 cKbRowW (by decide) (by decide)).2.2.2.2⟩

theorem foldl_processKB_allFail (outcomes : String → KBOutcome) :
    ∀ (l : List String) (st : LoopState), (∀ kb ∈ l, outcomes kb = .loadFail) →
      l.foldl (fun st kb => processKB kb (outcomes kb) st) st = st := by
  intro l
  induction l with
  | nil => intro st _; rfl
  | cons kb rest ih =>
    intro st h
    have hkb := h kb (List.mem_cons_self _ _)
    rw [List.foldl_cons, hkb]
    exact ih st (fun k hk => h k (List.mem_cons_of_mem _ hk))

theorem runKBLoop_allFail {kbNames : List String} {outcomes : String → KBOutcome}
    (h : ∀ kb ∈ kbNames, outcomes kb = .loadFail) :
    runKBLoop kbNames outcomes = initLoopState :=
  foldl_processKB_allFail outcomes kbNames initLoopState h

/-- C4: when every requested KB fails to load, the retrieval loop collects
no hit (an empty list, with no exception raised anywhere), and the caller
receives the fixed displayable no-information answer with zero
citations. -/
theorem processQuery_all_kbs_fail (kbNames : List String) (kbNameArg : Option String)
    (outcomes : String → KBOutcome)
    (addMessage : String → Except String Nat)
    (addSources : List SourceEntry → Except String Unit)
    (hne : kbNames ≠ [])
    (hfail : ∀ kb ∈ kbNames, outcomes kb = .loadFail)
    (hmsg : ∀ s : String, ∃ n, addMessage s = .ok n) :
    (runKBLoop kbNames outcomes).allSourceDocs = [] ∧
    finalSources kbNames outcomes = [] ∧
    (processQuery kbNames kbNameArg outcomes addMessage addSources).toOption.map
        (fun r => (r.content, r.queryRelevant, r.error))
      = some (noInfoMessage kbNames.length, [], none) := by
  have hloop := runKBLoop_allFail hfail
  have hdocs : (runKBLoop kbNames outcomes).allSourceDocs = [] := by
    rw [hloop]; rfl
  have hfs : finalSources kbNames outcomes = [] := by
    unfold finalSources
    rw [hdocs]
    rfl
  refine ⟨hdocs, hfs, ?_⟩
  have hans : selectAnswer kbNames.length (runKBLoop kbNames outcomes).allAnswers
      = noInfoMessage kbNames.length := by
    rw [hloop]; rfl
  obtain ⟨n, hn⟩ := hmsg (noInfoMessage kbNames.length)
  unfold processQuery
  simp only [resolveKbNames, hne, ne_eq, not_false_eq_true, if_true, ite_not]
  simp only [hans, hfs, hn, ne_eq, not_true_eq_false, if_false, ite_not,
    Except.toOption, Option.map_some, if_true, Option.map]

/-- Witness for C4: one requested KB that fails to load. -/
theorem processQuery_all_kbs_fail_witness :
    (["kb1"] : List String) ≠ [] ∧
    (processQuery ["kb1"] none (fun _ => KBOutcome.loadFail) (fun _ => Except.ok 1)
        (fun _ => Except.ok ())).toOption.map
        (fun r => (r.content, r.queryRelevant, r.error))
      = some (noInfoMessage 1, [], none) :=
  ⟨by simp,
    (processQuery_all_kbs_fail ["kb1"] none (fun _ => KBOutcome.loadFail)
      (fun _ => Except.ok 1) (fun _ => Except.ok ()) (by simp)
      (fun _ _ => rfl) (fun s => ⟨1, rfl⟩)).2.2⟩

/-- Shape of a successful, non-error result of `process_query`: its
sources and answer are exactly the deduplicated ranked sources and the
selected answer of the run. -/
theorem processQuery_ok_shape (kbNames : List String) (kbNameArg : Option String)
    (outcomes : String → KBOutcome) (addMessage : String → Except String Nat)
    (addSources : List SourceEntry → Except String Unit) (r : QueryResult)
    (hne : kbNames ≠ [])
    (hok : processQuery kbNames kbNameArg outcomes addMessage addSources = .ok r)
    (herr : r.error = none) :
    r.queryRelevant = finalSources kbNames outcomes ∧
    r.content = selectAnswer kbNames.length (runKBLoop kbNames outcomes).allAnswers ∧
    r.kbSpecific = kbSpecificSources kbNames outcomes := by
  simp only [processQuery, resolveKbNames, hne, ne_eq, not_false_eq_true, if_true,
    ite_not] at hok
  split at hok
  · unfold handleQueryError at hok
    split at hok
    · exact absurd hok (by simp)
    · cases hok
      simp at herr
  · split at hok
    · unfold handleQueryError at hok
      split at hok
      · exact absurd hok (by simp)
      · cases hok
        simp at herr
    · cases hok
      exact ⟨rfl, rfl, rfl⟩

/-- C2 (amended): the query-relevant sources produced by `process_query`
contain at most one hit per (source filename, page number) key; each kept
hit carries the maximal similarity among all collected hits with its key;
and these sources are exactly what a successful non-error call returns. -/
theorem processQuery_sources_deduplicated (kbNames : List String)
    (outcomes : String → KBOutcome) :
    ((finalSources kbNames outcomes).Pairwise
        (fun a b => (a.source, a.page) ≠ (b.source, b.page))) ∧
    (∀ s ∈ finalSources kbNames outcomes,
      ∀ d ∈ (runKBLoop kbNames outcomes).allSourceDocs,
        d.source = s.source → d.page + 1 = s.page → d.score ≤ s.score) ∧
    (∀ (kbNameArg : Option String) (addMessage : String → Except String Nat)
        (addSources : List SourceEntry → Except String Unit) (r : QueryResult),
      kbNames ≠ [] →
      processQuery kbNames kbNameArg outcomes addMessage addSources = .ok r →
      r.error = none →
      r.queryRelevant = finalSources kbNames outcomes) := by
  refine ⟨?_, ?_, ?_⟩
  · unfold finalSources
    rw [List.pairwise_map]
    refine List.Pairwise.imp ?_ (dedupDocs_key_nodup [] _)
    intro a b hab hc
    apply hab
    simp only [docToSource, Prod.mk.injEq] at hc
    obtain ⟨h1, h2⟩ := hc
    simp only [docKey, Prod.mk.injEq]
    exact ⟨h1, by omega⟩
  · intro s hs d hd hsrc hpage
    unfold finalSources at hs
    rcases List.mem_map.mp hs with ⟨x, hx, rfl⟩
    have hdmem : d ∈ sortDocsDesc (runKBLoop kbNames outcomes).allSourceDocs :=
      (sortDocsDesc_perm _).mem_iff.mpr hd
    have hkey : docKey d = docKey x := by
      simp only [docToSource] at hsrc hpage
      simp only [docKey, Prod.mk.injEq]
      exact ⟨hsrc, by omega⟩
    simpa [docToSource] using
      dedupDocs_max_score (sortDocsDesc_pairwise _) x hx d hdmem hkey
  · intro kbNameArg addMessage addSources r hne hok herr
    exact (processQuery_ok_shape kbNames kbNameArg outcomes addMessage addSources r
      hne hok herr).1

/-- C3 (amended): the query-relevant sources produced by `process_query`
are sorted by normalised similarity in descending order, and these sources
(in this order) are exactly what a successful non-error call returns. -/
theorem processQuery_sources_sorted (kbNames : List String)
    (outcomes : String → KBOutcome) :
    ((finalSources kbNames outcomes).Pairwise (fun a b => b.score ≤ a.score)) ∧
    (∀ (kbNameArg : Option String) (addMessage : String → Except String Nat)
        (addSources : List SourceEntry → Except String Unit) (r : QueryResult),
      kbNames ≠ [] →
      processQuery kbNames kbNameArg outcomes addMessage addSources = .ok r →
      r.error = none →
      r.queryRelevant = finalSources kbNames outcomes) := by
  constructor
  · unfold finalSources
    rw [List.pairwise_map]
    exact List.Pairwise.imp (fun hab => hab)
      (List.Pairwise.sublist (dedupDocs_sublist [] _) (sortDocsDesc_pairwise _))
  · intro kbNameArg addMessage addSources r hne hok herr
    exact (processQuery_ok_shape kbNames kbNameArg outcomes addMessage addSources r
      hne hok herr).1

/-- C10 counterexample: with one KB name supplied, a database failure of
`add_message` inside the pipeline is caught, but the handler's own
`add_message` call then raises and the exception propagates to the caller
of `process_query`. -/
theorem processQuery_handler_failure_propagates :
    processQuery ["kb1"] none (fun _ => KBOutcome.loadFail)
        (fun _ => Except.error "db down") (fun _ => Except.ok ())
      = .error "db down" := rfl

/-- C10 (amended): with at least one KB name supplied, and provided the
message-persistence call made by the exception handler itself succeeds,
`process_query` propagates no exception: it always returns a result, and
any pipeline error is returned as a result whose content is the
"I encountered an error while processing your query: " message, with
empty sources and the error recorded in the `error` field. -/
theorem processQuery_catches_pipeline_errors (kbNamesArg : List String)
    (kbNameArg : Option String) (outcomes : String → KBOutcome)
    (addMessage : String → Except String Nat)
    (addSources : List SourceEntry → Except String Unit)
    (hne : kbNamesArg ≠ [])
    (hmsg : ∀ e : String, ∃ n, addMessage (errorContent e) = .ok n) :
    (processQuery kbNamesArg kbNameArg outcomes addMessage addSources).toOption.isSome
        = true ∧
    ∀ (r : QueryResult) (e : String),
      processQuery kbNamesArg kbNameArg outcomes addMessage addSources = .ok r →
      r.error = some e →
      r.content = errorContent e ∧ r.queryRelevant = [] ∧ r.kbSpecific = [] := by
  constructor
  · simp only [processQuery, resolveKbNames, hne, ne_eq, not_false_eq_true, if_true,
      ite_not]
    split
    · next e _ =>
      obtain ⟨n, hn⟩ := hmsg e
      simp [handleQueryError, hn, Except.toOption]
    · split
      · next e _ =>
        obtain ⟨n, hn⟩ := hmsg e
        simp [handleQueryError, hn, Except.toOption]
      · simp [Except.toOption]
  · intro r e hok herr
    simp only [processQuery, resolveKbNames, hne, ne_eq, not_false_eq_true, if_true,
      ite_not] at hok
    split at hok
    · next e1 _ =>
      obtain ⟨n, hn⟩ := hmsg e1
      simp only [handleQueryError, hn] at hok
      cases hok
      simp only [Option.some.injEq] at herr
      subst herr
      exact ⟨rfl, rfl, rfl⟩
    · split at hok
      · next e1 _ =>
        obtain ⟨n, hn⟩ := hmsg e1
        simp only [handleQueryError, hn] at hok
        cases hok
        simp only [Option.some.injEq] at herr
        subst herr
        exact ⟨rfl, rfl, rfl⟩
      · cases hok
        simp at herr

/-- Concrete KB-name list for the C1 analysis: two knowledge bases. -/
def cKbsC1 : List String := ["kbA", "kbB"]

/-- Concrete outcomes for C1: both KBs return one hit and a successful
per-KB language-model answer ("alpha" resp. "beta"). -/
def cOutC1 : String → KBOutcome := fun kb =>
  if kb = "kbA" then .retrieved [(⟨"a.pdf", 0⟩, 1)] (some "alpha")
  else if kb = "kbB" then .retrieved [(⟨"b.pdf", 0⟩, 2)] (some "beta")
  else .loadFail

/-- Always-succeeding `add_message` oracle. -/
def cMsgOk : String → Except String Nat := fun _ => .ok 7

/-- Always-succeeding `add_sources` oracle. -/
def cSrcOk : List SourceEntry → Except String Unit := fun _ => .ok ()

/-- C1: on a query where two KBs each produce a per-KB answer, the
returned answer is the per-KB answer of the last KB ("beta"), i.e. one of
the individual per-KB answers; no synthesis language-model call exists in
the code (the multi-answer branch at `utils/chat.py:318-320` is an elided
stub), so no synthesis answer can be returned. -/
theorem processQuery_multi_kb_returns_last_per_kb_answer :
    (runKBLoop cKbsC1 cOutC1).allAnswers = [("kbA", "alpha"), ("kbB", "beta")] ∧
    2 ≤ (runKBLoop cKbsC1 cOutC1).allAnswers.length ∧
    (processQuery cKbsC1 none cOutC1 cMsgOk cSrcOk).toOption.map (fun r => r.content)
      = some "beta" ∧
    "beta" ∈ (runKBLoop cKbsC1 cOutC1).allAnswers.map Prod.snd := by
  have hloop : (runKBLoop cKbsC1 cOutC1).allAnswers
      = [("kbA", "alpha"), ("kbB", "beta")] := by
    simp [runKBLoop, processKB, cOutC1, cKbsC1, initLoopState]
  refine ⟨hloop, by rw [hloop]; norm_num, ?_, by rw [hloop]; norm_num⟩
  simp [processQuery, resolveKbNames, runKBLoop, processKB, cOutC1, cKbsC1,
    cMsgOk, cSrcOk, initLoopState, selectAnswer, finalSources, sortDocsDesc,
    insertDocDesc, dedupDocs, docKey, docToSource, similarity, kbSpecificSources,
    Except.toOption]

/-- Concrete KB-name list for the C2/C3 witnesses. -/
def cKbsC2 : List String := ["k1", "k2"]

/-- Concrete outcomes for the C2/C3 witnesses: the same (source, page)
key is hit from both KBs, at distance 1 (similarity 1/2) from "k1" and
distance 3 (similarity 1/4) from "k2". -/
def cOutC2 : String → KBOutcome := fun kb =>
  if kb = "k1" then .retrieved [(⟨"d.pdf", 0⟩, 1)] (some "a1")
  else if kb = "k2" then .retrieved [(⟨"d.pdf", 0⟩, 3)] (some "a2")
  else .loadFail

/-- The lower-scored duplicate document collected from "k2". -/
def cDocC2 : RetrievedDoc := ⟨"d.pdf", 0, "k2", similarity 3, 3⟩

/-- The surviving source entry: the higher-similarity occurrence. -/
def cSrcC2 : SourceEntry := ⟨"d.pdf", 1, similarity 1, "k1"⟩

/-- The full result of the C2/C3 witness query. -/
def cResC2 : QueryResult :=
  { content := "a2",
    queryRelevant := [cSrcC2],
    kbSpecific := [("k1", [⟨"d.pdf", 1, similarity 1, "k1"⟩]),
                   ("k2", [⟨"d.pdf", 1, similarity 3, "k2"⟩])],
    messageId := 7, error := none }

/-- Witness for C2 at the concrete duplicate-key query. -/
theorem processQuery_sources_deduplicated_witness :
    cSrcC2 ∈ finalSources cKbsC2 cOutC2 ∧
    cDocC2 ∈ (runKBLoop cKbsC2 cOutC2).allSourceDocs ∧
    cDocC2.score ≤ cSrcC2.score ∧
    cKbsC2 ≠ [] ∧ cResC2.error = none ∧
    cResC2.queryRelevant = finalSources cKbsC2 cOutC2 := by
  have h1 : cSrcC2 ∈ finalSources cKbsC2 cOutC2 := by
    simp [finalSources, runKBLoop, processKB, cOutC2, cKbsC2, initLoopState,
      sortDocsDesc, insertDocDesc, dedupDocs, docKey, docToSource, similarity, cSrcC2]
    norm_num [sortDocsDesc, insertDocDesc, dedupDocs, docKey, docToSource]
  have h2 : cDocC2 ∈ (runKBLoop cKbsC2 cOutC2).allSourceDocs := by
    simp [runKBLoop, processKB, cOutC2, cKbsC2, initLoopState, cDocC2, similarity]
  have hne : cKbsC2 ≠ [] := by simp [cKbsC2]
  have heval : processQuery cKbsC2 none cOutC2 cMsgOk cSrcOk = .ok cResC2 := by
    simp [processQuery, resolveKbNames, runKBLoop, processKB, cOutC2, cKbsC2,
      cMsgOk, cSrcOk, initLoopState, selectAnswer, finalSources, sortDocsDesc,
      insertDocDesc, dedupDocs, docKey, docToSource, similarity, kbSpecificSources,
      cResC2, cSrcC2]
    norm_num [selectAnswer, sortDocsDesc, insertDocDesc, dedupDocs, docKey,
      docToSource]
  exact ⟨h1, h2,
    (processQuery_sources_deduplicated cKbsC2 cOutC2).2.1 cSrcC2 h1 cDocC2 h2 rfl rfl,
    hne, rfl,
    (processQuery_sources_deduplicated cKbsC2 cOutC2).2.2 none cMsgOk cSrcOk cResC2
      hne heval rfl⟩

/-- Witness for C3 at the same concrete query. -/
theorem processQuery_sources_sorted_witness :
    cKbsC2 ≠ [] ∧
    processQuery cKbsC2 none cOutC2 cMsgOk cSrcOk = .ok cResC2 ∧
    cResC2.error = none ∧
    cResC2.queryRelevant = finalSources cKbsC2 cOutC2 := by
  have hne : cKbsC2 ≠ [] := by simp [cKbsC2]
  have heval : processQuery cKbsC2 none cOutC2 cMsgOk cSrcOk = .ok cResC2 := by
    simp [processQuery, resolveKbNames, runKBLoop, processKB, cOutC2, cKbsC2,
      cMsgOk, cSrcOk, initLoopState, selectAnswer, finalSources, sortDocsDesc,
      insertDocDesc, dedupDocs, docKey, docToSource, similarity, kbSpecificSources,
      cResC2, cSrcC2]
    norm_num [selectAnswer, sortDocsDesc, insertDocDesc, dedupDocs, docKey,
      docToSource]
  exact ⟨hne, heval, rfl,
    (processQuery_sources_sorted cKbsC2 cOutC2).2 none cMsgOk cSrcOk cResC2
      hne heval rfl⟩

theorem pyRound_intCast (n : ℤ) : pyRound ((n : ℚ)) = n := by
  unfold pyRound
  rw [Int.floor_intCast]
  norm_num

theorem pyRound_sim0 : pyRound (similarity 0 * 100) = 100 := by
  have h : similarity 0 * 100 = ((100 : ℤ) : ℚ) := by
    push_cast
    norm_num [similarity]
  rw [h, pyRound_intCast]

theorem pyRound_sim1 : pyRound (similarity 1 * 100) = 50 := by
  have h : similarity 1 * 100 = ((50 : ℤ) : ℚ) := by
    push_cast
    norm_num [similarity]
  rw [h, pyRound_intCast]

theorem pyRound_sim3 : pyRound (similarity 3 * 100) = 25 := by
  have h : similarity 3 * 100 = ((25 : ℤ) : ℚ) := by
    push_cast
    norm_num [similarity]
  rw [h, pyRound_intCast]

/-- Concrete retrieval oracle for the C2 counterexample: both KBs hit the
same (source, page) key, at distances 1 and 3. -/
def cSearchDup : String → Option (List (DocMeta × ℚ)) := fun kb =>
  if kb = "k1" then some [(⟨"d.pdf", 0⟩, 1)]
  else if kb = "k2" then some [(⟨"d.pdf", 0⟩, 3)]
  else none

/-- C2 counterexample: the sources returned by the `/query/rag` endpoint
(`rag_query` in `rag_apis.py`, one of the query paths the claim covers)
retain both hits with the identical (source filename, page number) key —
no deduplication happens on this path. -/
theorem ragQuery_sources_keep_duplicate_keys :
    ragQuerySources ["k1", "k2"] cSearchDup
      = [{ source := "d.pdf", page := 1, score := 50, kbName := "k1" },
         { source := "d.pdf", page := 1, score := 25, kbName := "k2" }] ∧
    ¬ ((ragQuerySources ["k1", "k2"] cSearchDup).Pairwise
        (fun a b => (a.source, a.page) ≠ (b.source, b.page))) := by
  have h : ragQuerySources ["k1", "k2"] cSearchDup
      = [{ source := "d.pdf", page := 1, score := 50, kbName := "k1" },
         { source := "d.pdf", page := 1, score := 25, kbName := "k2" }] := by
    simp [ragQuerySources, cSearchDup, pyRound_sim1, pyRound_sim3]
  refine ⟨h, ?_⟩
  rw [h]
  simp [List.pairwise_cons]

/-- Concrete retrieval oracle for the C3 counterexample: the first KB's
hit has distance 3 (similarity 1/4), the second KB's hit distance 0
(similarity 1). -/
def cSearchUnsorted : String → Option (List (DocMeta × ℚ)) := fun kb =>
  if kb = "kA" then some [(⟨"a.pdf", 0⟩, 3)]
  else if kb = "kB" then some [(⟨"b.pdf", 0⟩, 0)]
  else none

/-- C3 counterexample: the sources returned by the `/query/rag` endpoint
(`rag_query` in `rag_apis.py`, one of the query paths the claim covers)
are in KB-iteration order, not sorted by similarity descending: the
lower-similarity hit (25%) precedes the higher-similarity hit (100%). -/
theorem ragQuery_sources_not_sorted :
    ragQuerySources ["kA", "kB"] cSearchUnsorted
      = [{ source := "a.pdf", page := 1, score := 25, kbName := "kA" },
         { source := "b.pdf", page := 1, score := 100, kbName := "kB" }] ∧
    ¬ ((ragQuerySources ["kA", "kB"] cSearchUnsorted).Pairwise
        (fun a b => b.score ≤ a.score)) := by
  have h : ragQuerySources ["kA", "kB"] cSearchUnsorted
      = [{ source := "a.pdf", page := 1, score := 25, kbName := "kA" },
         { source := "b.pdf", page := 1, score := 100, kbName := "kB" }] := by
    simp [ragQuerySources, cSearchUnsorted, pyRound_sim0, pyRound_sim3]
  refine ⟨h, ?_⟩
  rw [h]
  simp [List.pairwise_cons]

/-- Concrete outcomes for the C10 witness: one KB with one hit and a
successful per-KB answer. -/
def cOut10 : String → KBOutcome := fun kb =>
  if kb = "kX" then .retrieved [(⟨"x.pdf", 0⟩, 1)] (some "ans") else .loadFail

/-- Failing `add_sources` oracle for the C10 witness. -/
def cSrcFail : List SourceEntry → Except String Unit := fun _ => .error "boom"

/-- The error-shaped result of the C10 witness run. -/
def cRes10 : QueryResult :=
  { content := errorContent "boom", queryRelevant := [], kbSpecific := [],
    messageId := 7, error := some "boom" }

/-- Witness for the amended C10: a pipeline failure of `add_sources` is
caught and returned as the error-shaped result. -/
theorem processQuery_catches_pipeline_errors_witness :
    (["kX"] : List String) ≠ [] ∧
    (processQuery ["kX"] none cOut10 cMsgOk cSrcFail).toOption.isSome = true ∧
    processQuery ["kX"] none cOut10 cMsgOk cSrcFail = .ok cRes10 ∧
    (cRes10.content = errorContent "boom" ∧ cRes10.queryRelevant = [] ∧
      cRes10.kbSpecific = []) := by
  have hne : (["kX"] : List String) ≠ [] := by simp
  have hmsg : ∀ e : String, ∃ n, cMsgOk (errorContent e) = .ok n := fun _ => ⟨7, rfl⟩
  have heval : processQuery ["kX"] none cOut10 cMsgOk cSrcFail = .ok cRes10 := by
    simp [processQuery, resolveKbNames, runKBLoop, processKB, cOut10, cMsgOk,
      cSrcFail, initLoopState, selectAnswer, finalSources, sortDocsDesc,
      insertDocDesc, dedupDocs, docKey, docToSource, similarity, kbSpecificSources,
      handleQueryError, cRes10]
  exact ⟨hne,
    (processQuery_catches_pipeline_errors ["kX"] none cOut10 cMsgOk cSrcFail
      hne hmsg).1,
    heval,
    (processQuery_catches_pipeline_errors ["kX"] none cOut10 cMsgOk cSrcFail
      hne hmsg).2 cRes10 "boom" heval rfl⟩

end RagChatbot
